import Mathlib

/-!
Verification of the dear-Naia web application core against its design
specification.  The TypeScript sources are shallowly embedded: pure
computations become Lean functions, callback-driven flows become functions
over an explicit event or collaborator-outcome argument, and machine
numbers become Nat / Int / Rat.  Every definition mirrors a concrete
function of the repository; the file ends with the theorems that settle
the specification claims.
-/

/-! ## JavaScript value helpers -/

/-- Truthiness of an optional string as JavaScript evaluates it:
`null`/`undefined` and the empty string are falsy, every other string is
truthy.  Both `null` and `undefined` are modelled as `none`. -/
def jsTruthy : Option String → Bool
  | none => false
  | some s => !(s == "")

/-- The expression `a || b` on optional strings as JavaScript evaluates it. -/
def jsOrElse (a b : Option String) : Option String :=
  if jsTruthy a then a else b

/-- Whether the first list is an initial segment of the second. -/
def listStartsWith : List Char → List Char → Bool
  | [], _ => true
  | _ :: _, [] => false
  | a :: as, b :: bs => a == b && listStartsWith as bs

/-- Fuel-driven splitting of a character list on a non-empty separator,
used to embed the JavaScript `String.split` (the fuel is structural so the
kernel can evaluate concrete splits). -/
def splitOnFuel (sep : List Char) : Nat → List Char → List Char → List (List Char)
  | 0, acc, l => [acc.reverse ++ l]
  | _ + 1, acc, [] => [acc.reverse]
  | fuel + 1, acc, c :: rest =>
    if listStartsWith sep (c :: rest) then
      acc.reverse :: splitOnFuel sep fuel [] (List.drop (sep.length - 1) rest)
    else
      splitOnFuel sep fuel (c :: acc) rest

/-- The JavaScript `s.split(sep)` for a non-empty plain-string separator:
the pieces between non-overlapping occurrences of `sep`, kept in order,
with empty pieces preserved. -/
def jsSplit (s sep : String) : List String :=
  (splitOnFuel sep.toList (s.toList.length + 1) [] s.toList).map String.mk

/-- The JavaScript `parts.join(sep)`. -/
def jsJoin (sep : String) : List String → String
  | [] => ""
  | [s] => s
  | s :: rest => s ++ sep ++ jsJoin sep rest

/-- A browser `File` value, reduced to the fields the embedded code reads:
`name`, MIME `type` and `size` in bytes. -/
structure JsFile where
  name : String
  type : String
  size : Nat
deriving Repr, DecidableEq

/-! ## Data model (src/types.ts and src/services/supabaseService.ts)

`VideoRow` is the database row shape, `VideoEntry` the in-memory domain
entity.  The optional `transcription` field uses `none` for both SQL
`null` and JS `undefined`. -/

structure VideoRow where
  id : String
  url : String
  thumbnail : String
  title : String
  description : String
  timestamp : Int
  duration_string : String
  transcription : Option String
  created_at : String
  updated_at : String
deriving Repr, DecidableEq

structure VideoEntry where
  id : String
  url : String
  thumbnail : String
  title : String
  description : String
  timestamp : Int
  durationString : String
  transcription : Option String
deriving Repr, DecidableEq

/-- The insert payload shape, `Omit VideoRow created_at updated_at`. -/
structure VideoRowInsert where
  id : String
  url : String
  thumbnail : String
  title : String
  description : String
  timestamp : Int
  duration_string : String
  transcription : Option String
deriving Repr, DecidableEq

/-- rowToVideoEntry from src/services/supabaseService.ts: converts a
database row to a VideoEntry; `row.transcription || undefined`. -/
def rowToVideoEntry (row : VideoRow) : VideoEntry :=
  { id := row.id
    url := row.url
    thumbnail := row.thumbnail
    title := row.title
    description := row.description
    timestamp := row.timestamp
    durationString := row.duration_string
    transcription := jsOrElse row.transcription none }

/-- videoEntryToRow from src/services/supabaseService.ts: converts a
VideoEntry to an insert/update row; `video.transcription || null`. -/
def videoEntryToRow (video : VideoEntry) : VideoRowInsert :=
  { id := video.id
    url := video.url
    thumbnail := video.thumbnail
    title := video.title
    description := video.description
    timestamp := video.timestamp
    duration_string := video.durationString
    transcription := jsOrElse video.transcription none }

/-! ## CompressionEncoder entry (src/utils/videoHelpers.ts, compressVideo) -/

/-- Default value of the `maxSizeMB` parameter of compressVideo. -/
def compressDefaultMaxSizeMB : ℚ := 45

/-- Outcome of the size check at the top of compressVideo: either the
promise resolves at once with the untouched input `File`, or the function
proceeds to build the canvas/MediaRecorder re-encoding pipeline (whose
completion then depends on runtime media events). -/
inductive CompressOutcome
  | resolvedUnchanged (file : JsFile)
  | startsReencode
deriving Repr, DecidableEq

/-- compressVideo from src/utils/videoHelpers.ts, up to its branch point.
Returns the progress percentages reported synchronously before the branch
settles together with the outcome.  In the source: `fileSizeMB =
videoFile.size / (1024 * 1024); if (fileSizeMB <= maxSizeMB)
onProgress(100); resolve(videoFile)` and otherwise the re-encoding
pipeline is set up. -/
def compressVideo (videoFile : JsFile) (maxSizeMB : ℚ) : List ℚ × CompressOutcome :=
  let fileSizeMB : ℚ := (videoFile.size : ℚ) / (1024 * 1024)
  if fileSizeMB ≤ maxSizeMB then
    ([100], .resolvedUnchanged videoFile)
  else
    ([], .startsReencode)

/-! ## FrameExtractor (src/utils/videoHelpers.ts, extractFrameFromVideo;
legacy variant in src/unnamed/part_000) -/

/-- Canvas sizing inside the onseeked handler: the canvas takes the native
video dimensions, and when the width exceeds 1280 it is scaled to width
1280 with the height multiplied by `1280 / videoWidth`.  Dimensions are
modelled exactly as rationals (JS computes them in floating point and the
canvas rounds to integers; the claim is stated up to that rounding). -/
def frameCanvasSize (videoWidth videoHeight : Nat) : ℚ × ℚ :=
  if (videoWidth : ℚ) > 1280 then
    let scale : ℚ := 1280 / (videoWidth : ℚ)
    (1280, (videoHeight : ℚ) * scale)
  else
    ((videoWidth : ℚ), (videoHeight : ℚ))

/-- The still image produced on the success path: canvas dimensions plus
the `toDataURL` encoding arguments. -/
structure FrameImage where
  width : ℚ
  height : ℚ
  mimeType : String
  quality : ℚ
deriving Repr, DecidableEq

/-- The timeout passed to setTimeout in extractFrameFromVideo
(src/utils/videoHelpers.ts): 30000 milliseconds. -/
def extractTimeoutMs : Nat := 30000

/-- The runtime event that settles the extraction promise: the seek
completes (with flags for whether a 2d context is available and whether
drawImage/toDataURL throws), the media element raises a decode error, or
the 30 second timer fires first. -/
inductive ExtractEvent
  | seeked (ctxAvailable : Bool) (drawThrows : Bool)
  | loadError
  | timeout
deriving Repr, DecidableEq

/-- How the extraction promise settles. -/
inductive ExtractResult
  | frame (img : FrameImage)
  | errCanvasCtx
  | errLoad
  | errTimeout
  | errThrown
deriving Repr, DecidableEq

/-- Which of the acquired resources were released on the taken exit path:
the temporary object URL (URL.revokeObjectURL), the off-screen video
element (video.remove) and the pending 30 s timer (clearTimeout). -/
structure ReleasedResources where
  objectUrlRevoked : Bool
  videoRemoved : Bool
  timerCleared : Bool
deriving Repr, DecidableEq

/-- extractFrameFromVideo from src/utils/videoHelpers.ts, as a function of
the video dimensions, the requested seek time and the event that settles
the promise.  The timeout callback revokes the URL and removes the video
(the timer has already fired, so it is not cleared); every other exit path
runs `cleanup()` which clears the timer, revokes the URL and removes the
video.  The seek time determines only which pixels are sampled, never the
dimensions or the encoding. -/
def extractFrameFromVideo (videoWidth videoHeight : Nat) (time : ℚ)
    (ev : ExtractEvent) : ExtractResult × ReleasedResources :=
  let _ := time
  match ev with
  | .timeout => (.errTimeout, ⟨true, true, false⟩)
  | .loadError => (.errLoad, ⟨true, true, true⟩)
  | .seeked ctxAvailable drawThrows =>
    if ctxAvailable then
      if drawThrows then
        (.errThrown, ⟨true, true, true⟩)
      else
        let wh := frameCanvasSize videoWidth videoHeight
        (.frame ⟨wh.1, wh.2, "image/jpeg", 7 / 10⟩, ⟨true, true, true⟩)
    else
      (.errCanvasCtx, ⟨true, true, true⟩)

/-- Events that can settle the promise of the legacy extractor in
src/unnamed/part_000: that variant installs no timer at all, so a seek
that never completes leaves the promise pending forever. -/
inductive LegacyExtractEvent
  | seeked (ctxAvailable : Bool) (drawThrows : Bool)
  | loadError
deriving Repr, DecidableEq

/-- Resources released by the legacy extractor (it has no timer). -/
structure LegacyReleased where
  objectUrlRevoked : Bool
  videoRemoved : Bool
deriving Repr, DecidableEq

/-- extractFrameFromVideo as written in src/unnamed/part_000: the onseeked
handler releases the URL and the element in a `finally` block, but the
onerror handler only rejects, releasing nothing, and no timeout exists. -/
def extractFrameFromVideoLegacy (videoWidth videoHeight : Nat) (time : ℚ)
    (ev : LegacyExtractEvent) : ExtractResult × LegacyReleased :=
  let _ := time
  match ev with
  | .loadError => (.errLoad, ⟨false, false⟩)
  | .seeked ctxAvailable drawThrows =>
    if ctxAvailable then
      if drawThrows then
        (.errThrown, ⟨true, true⟩)
      else
        let wh := frameCanvasSize videoWidth videoHeight
        (.frame ⟨wh.1, wh.2, "image/jpeg", 7 / 10⟩, ⟨true, true⟩)
    else
      (.errCanvasCtx, ⟨true, true⟩)

/-! ## Uploader (src/services/supabaseService.ts, uploadVideoToStorage) -/

/-- FILE_SIZE_THRESHOLD from uploadVideoToStorage: 6 MiB in bytes. -/
def FILE_SIZE_THRESHOLD : Nat := 6 * 1024 * 1024

/-- The options object passed to `storage.from(bucket).upload`. -/
structure StorageUploadOptions where
  cacheControl : String
  upsert : Bool
  contentType : String
deriving Repr, DecidableEq

/-- The transfer protocol a call to storage actually invokes.  The
`resumableUpload` constructor exists so the statement that the code never
performs a chunked resumable transfer can be expressed; the embedded
source only ever produces `standardUpload`. -/
inductive TransferProtocol
  | standardUpload (bucket filePath : String) (options : StorageUploadOptions)
  | resumableUpload (chunkSizeBytes : Nat) (retryDelaysMs : List Nat)
deriving Repr, DecidableEq

/-- The extension of a file name: `file.name.split(dot).pop()`. -/
def fileExtOf (name : String) : String :=
  ((jsSplit name ".").getLast?).getD ""

/-- uploadVideoToStorage from src/services/supabaseService.ts (lines
361-436): builds `videos/videoId.ext`, compares the file size with
FILE_SIZE_THRESHOLD, logs a message in the large-file branch, and issues
the storage call.  The returned pair is (console log lines, the storage
transfer invoked).  Both branches of the source call the identical
`supabase.storage.from(videos).upload(filePath, file, cacheControl 3600,
upsert false, contentType file.type)`; only the log line differs. -/
def uploadVideoToStorage (file : JsFile) (videoId : String) :
    List String × TransferProtocol :=
  let fileName := videoId ++ "." ++ fileExtOf file.name
  let filePath := "videos/" ++ fileName
  let options : StorageUploadOptions := ⟨"3600", false, file.type⟩
  if file.size > FILE_SIZE_THRESHOLD then
    (["Using resumable upload for large file"],
     .standardUpload "videos" filePath options)
  else
    ([], .standardUpload "videos" filePath options)

/-! ## TranscriptionOrchestrator poll loop (src/unnamed/part_008,
transcribeVideo, lines 220-258) -/

/-- One status-query response from the provider: whether the HTTP response
was ok, the `status` string of the JSON body and its optional `text`
field. -/
structure PollResponse where
  ok : Bool
  status : String
  text : Option String
deriving Repr, DecidableEq

/-- How the poll loop of transcribeVideo finishes. -/
inductive PollOutcome
  | transcript (text : String)
  | failed
  | timedOut
deriving Repr, DecidableEq

/-- maxAttempts in transcribeVideo: 60 (5 minutes at 5 s intervals). -/
def maxPollAttempts : Nat := 60

/-- The delay passed to setTimeout before each status query: 5000 ms. -/
def pollIntervalMs : Nat := 5000

/-- The body of the `while (attempts < maxAttempts)` loop of
transcribeVideo.  `responses n` is the provider answer to the nth status
query (1-indexed: the source increments `attempts` before fetching).
`fuel` equals `maxAttempts - attempts`; each iteration waits 5 s, issues
exactly one status query, then: a non-ok HTTP response continues; status
`completed` returns the text when the text is truthy and otherwise
continues; status `error` returns null; every other status continues.
The result pairs the outcome with the total number of status queries
issued. -/
def pollLoopAux (responses : Nat → PollResponse) :
    Nat → Nat → PollOutcome × Nat
  | 0, attempts => (.timedOut, attempts)
  | fuel + 1, attempts =>
    if (responses (attempts + 1)).ok = false then
      pollLoopAux responses fuel (attempts + 1)
    else if (responses (attempts + 1)).status == "completed" then
      if jsTruthy (responses (attempts + 1)).text then
        (.transcript ((responses (attempts + 1)).text.getD ""), attempts + 1)
      else
        pollLoopAux responses fuel (attempts + 1)
    else if (responses (attempts + 1)).status == "error" then
      (.failed, attempts + 1)
    else
      pollLoopAux responses fuel (attempts + 1)

/-- The complete poll phase of transcribeVideo: run the loop from
`attempts = 0` with fuel `maxPollAttempts`. -/
def transcribeVideoPoll (responses : Nat → PollResponse) : PollOutcome × Nat :=
  pollLoopAux responses maxPollAttempts 0

/-! ## Accessibility verification (src/unnamed/part_008, Deno.serve
handler, lines 56-97) -/

/-- The marker the handler splits the public URL on to recover the bucket
and object path. -/
def storagePublicMarker : String := "/storage/v1/object/public/"

/-- Bucket and path extraction from the public URL: split on the marker,
then the first path segment is the bucket and the rest the object path.
Returns `none` when the URL does not contain the marker (urlParts.length
is not greater than 1), in which case the source skips the signed-URL
fallback entirely. -/
def extractBucketPath (videoUrl : String) : Option (String × String) :=
  match jsSplit videoUrl storagePublicMarker with
  | _ :: second :: _ =>
    let pathParts := jsSplit second "/"
    some (pathParts.headD "", jsJoin "/" pathParts.tail)
  | _ => none

/-- Outcomes of the three access attempts the handler can make, supplied
by the collaborators: whether the HEAD request is ok, whether the
fallback GET is ok, and the result of `createSignedUrl` for the extracted
bucket/path (`none` models a signed-URL error). -/
structure AccessProbe where
  headOk : Bool
  getOk : Bool
  signedUrl : Option String
deriving Repr, DecidableEq

/-- The accessibility-verification stage of the edge-function handler.
`Except.ok u` means the handler proceeds to submit `u` to the
transcription provider as `finalVideoUrl`; `Except.error` means the
handler throws, producing the 500 failure response.  Mirrors the source:
HEAD, then GET, then only when the URL contains the public-storage marker
a signed URL is minted (throwing when that fails); when the marker is
absent the original URL is kept even though both probes failed. -/
def verifyVideoAccess (videoUrl : String) (probe : AccessProbe) :
    Except String String :=
  if probe.headOk then
    .ok videoUrl
  else if probe.getOk then
    .ok videoUrl
  else
    match extractBucketPath videoUrl with
    | some _ =>
      match probe.signedUrl with
      | some u => .ok u
      | none => .error "Failed to access video"
    | none => .ok videoUrl

/-! ## Client upload flow (src/App.tsx, handleUpload video path, lines
218-271; src/services/supabaseService.ts, triggerVideoProcessing) -/

/-- Observable steps of the video branch of handleUpload, in the order
they are executed. -/
inductive UploadEvent
  | storageUploadFailed
  | storageUploadCompleted (url : String)
  | dbInsertCompleted (url : String)
  | dbInsertFailed (url : String)
  | transcriptionTriggered (videoId url : String)
deriving Repr, DecidableEq

/-- Final state of the video branch of handleUpload. -/
inductive UploadFlowOutcome
  | noFile
  | failedStorage
  | savedAndTriggered (url : String)
  | savedLocallyOnly (url : String)
deriving Repr, DecidableEq

/-- What the fire-and-forget fetch inside triggerVideoProcessing runs
into: a network error (rejected promise) or an HTTP response with the
given ok flag. -/
inductive TriggerNet
  | networkError (message : String)
  | response (ok : Bool)
deriving Repr, DecidableEq

/-- triggerVideoProcessing from src/services/supabaseService.ts (lines
511-554).  The fetch promise chain handles every outcome itself: a
non-ok response and a network error are logged by the `.then`/`.catch`
handlers and nothing is thrown; the function returns immediately.  Its
only observable output is the log, so the embedding returns the log
lines: the total return type records that no failure escapes. -/
def triggerVideoProcessing (videoId videoUrl : String) (net : TriggerNet) :
    List String :=
  let _ := videoUrl
  match net with
  | .networkError message =>
    ["Failed to trigger video processing: " ++ message]
  | .response ok =>
    if ok then
      ["Background transcription started for video " ++ videoId]
    else
      ["Error triggering video processing"]

/-- The video branch of handleUpload in src/App.tsx, as a function of the
collaborator outcomes: the storage upload result (public URL or failure),
whether the database insert succeeds, and the network outcome of the
transcription trigger.  Returns the ordered event trace, the outcome, and
the trigger log.  The source awaits uploadVideoToStorage, throws when it
returns null, builds the VideoEntry referencing the storage URL, awaits
insertVideo, and only when the insert succeeded calls
triggerVideoProcessing without awaiting it; when the insert fails the
entry is kept locally and no trigger is issued. -/
def handleUploadVideo (file : Option JsFile) (videoId : String)
    (storageResult : Option String) (insertOk : Bool) (net : TriggerNet) :
    List UploadEvent × UploadFlowOutcome × List String :=
  match file with
  | none => ([], .noFile, [])
  | some _ =>
    match storageResult with
    | none => ([.storageUploadFailed], .failedStorage, [])
    | some storageUrl =>
      if insertOk then
        ([.storageUploadCompleted storageUrl,
          .dbInsertCompleted storageUrl,
          .transcriptionTriggered videoId storageUrl],
         .savedAndTriggered storageUrl,
         triggerVideoProcessing videoId storageUrl net)
      else
        ([.storageUploadCompleted storageUrl, .dbInsertFailed storageUrl],
         .savedLocallyOnly storageUrl,
         [])

/-! ## AdaptiveFeedScheduler (src/components/NaiasView.tsx) -/

/-- Connection classification result. -/
inductive ConnectionQuality
  | slow
  | medium
  | fast
deriving Repr, DecidableEq

/-- The fields of the Network Information API object the classifier
reads: `effectiveType`, `type` and `downlink` (Mbps). -/
structure ConnectionInfo where
  effectiveType : Option String
  type : Option String
  downlink : Option ℚ
deriving Repr, DecidableEq

/-- getConnectionQuality from src/components/NaiasView.tsx (lines 20-49).
The argument is `none` when no `navigator.connection` object exists.  In
the source, `(connection.downlink || 0)` coerces a missing downlink to 0,
and the final `if (connection.downlink)` block runs only when downlink is
present and nonzero; every fall-through returns medium. -/
def getConnectionQuality (connection : Option ConnectionInfo) :
    ConnectionQuality :=
  match connection with
  | none => .medium
  | some c =>
    if c.effectiveType = some "slow-2g" ∨ c.effectiveType = some "2g" then
      .slow
    else if c.effectiveType = some "3g" then
      .medium
    else if c.effectiveType = some "4g" then
      .fast
    else if c.type = some "cellular" ∧ c.downlink.getD 0 < 2 then
      .slow
    else if c.type = some "cellular" then
      .medium
    else
      match c.downlink with
      | some d =>
        if d ≠ 0 then
          if d < 3 / 2 then .slow
          else if d < 5 then .medium
          else .fast
        else
          .medium
      | none => .medium

/-- The adaptive preload fan-out: `quality === fast ? 3 : quality ===
medium ? 2 : 1` (NaiasView.tsx line 54). -/
def preloadCountFor : ConnectionQuality → Nat
  | .fast => 3
  | .medium => 2
  | .slow => 1

/-- Per-session configuration of the feed: the classified connection
quality and the number of items in the video list. -/
structure FeedConfig where
  connectionQuality : ConnectionQuality
  itemCount : Nat
deriving Repr, DecidableEq

/-- preloadCount of a session. -/
def FeedConfig.preloadCount (cfg : FeedConfig) : Nat :=
  preloadCountFor cfg.connectionQuality

/-- The scheduler state: the active index, the
is-programmatically-scrolling flag, which item indices have their media
source attached (`videoElement.src` set, id in `loadedVideos`), and which
items are currently playing. -/
structure FeedState where
  currentIndex : Nat
  isScrolling : Bool
  loaded : Nat → Bool
  playing : Nat → Bool

/-- The state at mount: useState(0), useState(false), empty loaded set,
nothing playing. -/
def initialFeedState : FeedState :=
  { currentIndex := 0
    isScrolling := false
    loaded := fun _ => false
    playing := fun _ => false }

/-- The shared attach step: every preload site in the source guards on the
item existing (index in range) and on `!videoElement.src &&
!loadedVideos.has(id)` before setting the source and adding the id to the
loaded set.  Attaching never clears any other entry. -/
def attachIfNeeded (cfg : FeedConfig) (i : Nat) (loaded : Nat → Bool) :
    Nat → Bool :=
  if i < cfg.itemCount ∧ loaded i = false then
    fun j => if j = i then true else loaded j
  else
    loaded

/-- Attach a list of indices in order (the `for` loops of the source;
out-of-range indices are no-ops, matching the loop bound checks). -/
def attachMany (cfg : FeedConfig) (idxs : List Nat) (loaded : Nat → Bool) :
    Nat → Bool :=
  idxs.foldl (fun acc i => attachIfNeeded cfg i acc) loaded

/-- The mount effect (NaiasView.tsx lines 60-100): when the list is
nonempty and the first item has no source yet, attach item 0 with full
preload, start its playback once ready, and attach items 1..preloadCount
(bounded by the list length).  When the first item already has a source
the whole block is skipped. -/
def mountEffect (cfg : FeedConfig) (s : FeedState) : FeedState :=
  if 0 < cfg.itemCount ∧ s.loaded 0 = false then
    let afterFirst := attachIfNeeded cfg 0 s.loaded
    let afterAhead := attachMany cfg (List.range' 1 cfg.preloadCount) afterFirst
    { s with
      loaded := afterAhead
      playing := fun j => if j = 0 then true else s.playing j }
  else
    s

/-- The scroll handler (NaiasView.tsx lines 107-159), taking the index of
the item whose geometric center is closest to the container center as an
argument (the geometry itself lives outside the state).  When the
programmatic-scroll flag is set the handler returns at once; otherwise it
records the new active index and attaches sources for the closest item,
for preloadCount items ahead, and, on fast connections only, for one item
behind. -/
def handleScroll (cfg : FeedConfig) (closestIndex : Nat) (s : FeedState) :
    FeedState :=
  if s.isScrolling then
    s
  else
    let l1 := attachIfNeeded cfg closestIndex s.loaded
    let l2 := attachMany cfg (List.range' (closestIndex + 1) cfg.preloadCount) l1
    let l3 :=
      if cfg.connectionQuality = .fast ∧ 0 < closestIndex then
        attachIfNeeded cfg (closestIndex - 1) l2
      else
        l2
    { s with currentIndex := closestIndex, loaded := l3 }

/-- One IntersectionObserver entry callback (NaiasView.tsx lines 172-231)
for the item at `idx`: when the entry intersects and the item is not yet
loaded, attach it plus `max 1 (preloadCount - 1)` items ahead; then, when
the entry intersects with ratio above 0.5 and the source is attached,
play the item, and in every other case pause it.  Pausing never touches
the source. -/
def intersectionCallback (cfg : FeedConfig) (idx : Nat)
    (isIntersecting : Bool) (visibleFrac : ℚ) (s : FeedState) : FeedState :=
  let s1 :=
    if isIntersecting ∧ s.loaded idx = false then
      let l1 := attachIfNeeded cfg idx s.loaded
      let ahead := max 1 (cfg.preloadCount - 1)
      { s with loaded := attachMany cfg (List.range' (idx + 1) ahead) l1 }
    else
      s
  if isIntersecting ∧ visibleFrac > 1 / 2 then
    if s1.loaded idx = true then
      { s1 with playing := fun j => if j = idx then true else s1.playing j }
    else
      s1
  else
    { s1 with playing := fun j => if j = idx then false else s1.playing j }

/-- Arrow keys handled by the keyboard listener. -/
inductive ArrowKey
  | down
  | up
deriving Repr, DecidableEq

/-- Keyboard preload-ahead count (NaiasView.tsx line 276): fast 2,
medium 1, slow 0. -/
def keyPreloadAhead : ConnectionQuality → Nat
  | .fast => 2
  | .medium => 1
  | .slow => 0

/-- The keydown handler (NaiasView.tsx lines 256-307): set the
programmatic-scroll flag, compute the clamped next index, and when that
item exists attach its source, up to keyPreloadAhead sources after it,
and, on fast connections, the one before it; then scroll it into view and
record it as the active index.  A 500 ms timer (the settle op below)
clears the flag afterwards.  Nothing is ever paused or detached here. -/
def handleKeyDown (cfg : FeedConfig) (key : ArrowKey) (s : FeedState) :
    FeedState :=
  let nextIndex :=
    match key with
    | .down => min (s.currentIndex + 1) (cfg.itemCount - 1)
    | .up => s.currentIndex - 1
  let newLoaded :=
    if nextIndex < cfg.itemCount then
      let l1 := attachIfNeeded cfg nextIndex s.loaded
      let l2 :=
        attachMany cfg
          (List.range' (nextIndex + 1) (keyPreloadAhead cfg.connectionQuality)) l1
      if cfg.connectionQuality = .fast ∧ 0 < nextIndex then
        attachIfNeeded cfg (nextIndex - 1) l2
      else
        l2
    else
      s.loaded
  { s with
    isScrolling := true
    loaded := newLoaded
    currentIndex := if nextIndex < cfg.itemCount then nextIndex else s.currentIndex }

/-- The setTimeout callback scheduled by the keydown handler: clear the
programmatic-scroll flag after 500 ms. -/
def scrollSettle (s : FeedState) : FeedState :=
  { s with isScrolling := false }

/-- The click handler on a video element (NaiasView.tsx lines 385-406):
when the item has no source yet, attach it and start playback once ready;
otherwise toggle play/pause. -/
def handleVideoClick (cfg : FeedConfig) (idx : Nat) (s : FeedState) :
    FeedState :=
  if s.loaded idx = false then
    if idx < cfg.itemCount then
      { s with
        loaded := attachIfNeeded cfg idx s.loaded
        playing := fun j => if j = idx then true else s.playing j }
    else
      s
  else
    { s with playing := fun j => if j = idx then !s.playing j else s.playing j }

/-- Every operation the feed scheduler performs during a session. -/
inductive FeedOp
  | mount
  | scroll (closestIndex : Nat)
  | intersection (idx : Nat) (isIntersecting : Bool) (visibleFrac : ℚ)
  | key (k : ArrowKey)
  | settle
  | click (idx : Nat)

/-- Dispatch of a scheduler operation to its handler. -/
def applyFeedOp (cfg : FeedConfig) : FeedOp → FeedState → FeedState
  | .mount => mountEffect cfg
  | .scroll closestIndex => handleScroll cfg closestIndex
  | .intersection idx inter frac => intersectionCallback cfg idx inter frac
  | .key k => handleKeyDown cfg k
  | .settle => scrollSettle
  | .click idx => handleVideoClick cfg idx

/-! ## Helper lemmas -/

/-- Attaching one source never clears another attached source. -/
theorem attachIfNeeded_mono (cfg : FeedConfig) (i : Nat) (loaded : Nat → Bool)
    (k : Nat) (h : loaded k = true) : attachIfNeeded cfg i loaded k = true := by
  unfold attachIfNeeded
  split
  · by_cases hk : k = i <;> simp [hk, h]
  · exact h

/-- Attaching any list of sources never clears an attached source. -/
theorem attachMany_mono (cfg : FeedConfig) (idxs : List Nat)
    (loaded : Nat → Bool) (k : Nat) (h : loaded k = true) :
    attachMany cfg idxs loaded k = true := by
  induction idxs generalizing loaded with
  | nil => simpa [attachMany] using h
  | cons a as ih =>
    simp only [attachMany, List.foldl_cons] at *
    exact ih _ (attachIfNeeded_mono cfg a loaded k h)

/-- The unfolding equation for one iteration of the poll loop. -/
theorem pollLoopAux_succ (responses : Nat → PollResponse) (fuel attempts : Nat) :
    pollLoopAux responses (fuel + 1) attempts =
      if (responses (attempts + 1)).ok = false then
        pollLoopAux responses fuel (attempts + 1)
      else if (responses (attempts + 1)).status == "completed" then
        if jsTruthy (responses (attempts + 1)).text then
          (.transcript ((responses (attempts + 1)).text.getD ""), attempts + 1)
        else
          pollLoopAux responses fuel (attempts + 1)
      else if (responses (attempts + 1)).status == "error" then
        (.failed, attempts + 1)
      else
        pollLoopAux responses fuel (attempts + 1) := rfl

/-- The poll loop never issues more status queries than its fuel allows. -/
theorem pollLoopAux_queries_le (responses : Nat → PollResponse)
    (fuel : Nat) : ∀ attempts : Nat,
    (pollLoopAux responses fuel attempts).2 ≤ attempts + fuel := by
  induction fuel with
  | zero => intro attempts; simp [pollLoopAux]
  | succ k ih =>
    intro attempts
    rw [pollLoopAux_succ]
    split_ifs <;>
      first
        | exact le_trans (ih (attempts + 1)) (by omega)
        | simp

/-- A poll response that sends the loop into its next iteration: either the
HTTP response is not ok, or the status is neither error nor
completed-with-truthy-text. -/
def continuesPolling (r : PollResponse) : Prop :=
  r.ok = false ∨
    (r.status ≠ "error" ∧ (r.status = "completed" → jsTruthy r.text = false))

/-- When every response in the remaining window keeps the loop going, the
loop exhausts its fuel, issuing exactly one query per unit of fuel, and
times out. -/
theorem pollLoopAux_timeout (responses : Nat → PollResponse) (fuel : Nat) :
    ∀ attempts : Nat,
    (∀ n, attempts < n → n ≤ attempts + fuel → continuesPolling (responses n)) →
    pollLoopAux responses fuel attempts = (.timedOut, attempts + fuel) := by
  induction fuel with
  | zero => intro attempts _; simp [pollLoopAux]
  | succ k ih =>
    intro attempts h
    have hnext : continuesPolling (responses (attempts + 1)) :=
      h (attempts + 1) (by omega) (by omega)
    have htail : pollLoopAux responses k (attempts + 1) = (.timedOut, attempts + 1 + k) :=
      ih (attempts + 1) (fun n h1 h2 => h n (by omega) (by omega))
    have harith : attempts + 1 + k = attempts + (k + 1) := by omega
    rw [pollLoopAux_succ]
    rcases hnext with hok | ⟨herr, hcomp⟩
    · rw [if_pos hok, htail, harith]
    · by_cases hok : (responses (attempts + 1)).ok = false
      · rw [if_pos hok, htail, harith]
      · rw [if_neg hok]
        by_cases hc : (responses (attempts + 1)).status = "completed"
        · have : ((responses (attempts + 1)).status == "completed") = true := by
            simp [hc]
          rw [if_pos this, if_neg (by simp [hcomp hc]), htail, harith]
        · have hc2 : ((responses (attempts + 1)).status == "completed") = false := by
            simp [hc]
          have he2 : ((responses (attempts + 1)).status == "error") = false := by
            simp [herr]
          rw [if_neg (by simp [hc2]), if_neg (by simp [he2]), htail, harith]

/-! ## Claim C10: row/entity conversion round trip -/

/-- C10: for every VideoRow, `videoEntryToRow (rowToVideoEntry row)` agrees
with the row on id, url, thumbnail, title, description, timestamp and
duration_string, maps a null transcription back to null and a non-empty
transcription to itself, while a transcription equal to the empty string
is coerced to undefined and then to null by the falsy-or conversions. -/
theorem c10_row_entry_roundtrip (row : VideoRow) :
    (videoEntryToRow (rowToVideoEntry row)).id = row.id ∧
    (videoEntryToRow (rowToVideoEntry row)).url = row.url ∧
    (videoEntryToRow (rowToVideoEntry row)).thumbnail = row.thumbnail ∧
    (videoEntryToRow (rowToVideoEntry row)).title = row.title ∧
    (videoEntryToRow (rowToVideoEntry row)).description = row.description ∧
    (videoEntryToRow (rowToVideoEntry row)).timestamp = row.timestamp ∧
    (videoEntryToRow (rowToVideoEntry row)).duration_string = row.duration_string ∧
    (videoEntryToRow (rowToVideoEntry row)).transcription
      = if row.transcription = some "" then none else row.transcription := by
  refine ⟨rfl, rfl, rfl, rfl, rfl, rfl, rfl, ?_⟩
  simp only [videoEntryToRow, rowToVideoEntry, jsOrElse, jsTruthy]
  match h : row.transcription with
  | none => simp
  | some s =>
    by_cases hs : s = "" <;> simp [hs]

/-! ## Claim C9: compressVideo passthrough for small files -/

/-- C9: a file whose size in MB is at most the target maximum resolves as
the identical input File with progress 100 reported exactly once; only a
strictly larger file enters the re-encoding pipeline; the default target
is 45 MB. -/
theorem c9_small_file_resolves_unchanged (f : JsFile) (maxSizeMB : ℚ) :
    compressDefaultMaxSizeMB = 45 ∧
    ((f.size : ℚ) / (1024 * 1024) ≤ maxSizeMB →
      compressVideo f maxSizeMB = ([100], .resolvedUnchanged f)) ∧
    (maxSizeMB < (f.size : ℚ) / (1024 * 1024) →
      compressVideo f maxSizeMB = ([], .startsReencode)) := by
  refine ⟨rfl, ?_, ?_⟩
  · intro h
    simp [compressVideo, h]
  · intro h
    simp [compressVideo, not_le.mpr h]

/-- Witness for C9: a 1 MiB file with the default 45 MB target resolves
unchanged with a single progress report of 100. -/
theorem c9_small_file_resolves_unchanged_witness :
    ((1048576 : Nat) : ℚ) / (1024 * 1024) ≤ 45 ∧
    compressVideo ⟨"clip.mp4", "video/mp4", 1048576⟩ 45
      = ([100], .resolvedUnchanged ⟨"clip.mp4", "video/mp4", 1048576⟩) := by
  have h : (((⟨"clip.mp4", "video/mp4", 1048576⟩ : JsFile).size : Nat) : ℚ) / (1024 * 1024) ≤ 45 := by
    norm_num
  exact ⟨h, (c9_small_file_resolves_unchanged ⟨"clip.mp4", "video/mp4", 1048576⟩ 45).2.1 h⟩

/-! ## Claim C6: frame dimensions -/

/-- C6: for every video with positive native dimensions and every valid
seek offset, the extracted frame has width at most 1280, its aspect ratio
equals the native aspect ratio exactly (in the rational model), the
native dimensions are kept when the width does not exceed 1280, and the
success path encodes the canvas as image/jpeg at quality 0.7. -/
theorem c6_frame_dimensions (videoWidth videoHeight : Nat) (t duration : ℚ)
    (hw : 0 < videoWidth) (hh : 0 < videoHeight)
    (ht0 : 0 ≤ t) (htd : t ≤ duration) :
    (frameCanvasSize videoWidth videoHeight).1 ≤ 1280 ∧
    (frameCanvasSize videoWidth videoHeight).1 /
        (frameCanvasSize videoWidth videoHeight).2
      = (videoWidth : ℚ) / (videoHeight : ℚ) ∧
    (videoWidth ≤ 1280 →
      frameCanvasSize videoWidth videoHeight
        = ((videoWidth : ℚ), (videoHeight : ℚ))) ∧
    (extractFrameFromVideo videoWidth videoHeight t (.seeked true false)).1
      = .frame ⟨(frameCanvasSize videoWidth videoHeight).1,
                (frameCanvasSize videoWidth videoHeight).2,
                "image/jpeg", 7 / 10⟩ := by
  have hwq : (videoWidth : ℚ) ≠ 0 := by
    exact_mod_cast Nat.pos_iff_ne_zero.mp hw
  have hhq : (videoHeight : ℚ) ≠ 0 := by
    exact_mod_cast Nat.pos_iff_ne_zero.mp hh
  refine ⟨?_, ?_, ?_, rfl⟩
  · unfold frameCanvasSize
    split
    · norm_num
    · rename_i hle
      simpa using le_of_not_lt hle
  · unfold frameCanvasSize
    split
    · rename_i hgt
      simp only
      field_simp
      ring
    · simp
  · intro hle
    unfold frameCanvasSize
    rw [if_neg]
    rw [not_lt]
    exact_mod_cast hle

/-- Witness for C6: a 1920x1080 video at offset 1 s of a 10 s clip yields
a 1280x720 frame, and 1280/720 equals the native 16:9 ratio. -/
theorem c6_frame_dimensions_witness :
    (frameCanvasSize 1920 1080).1 ≤ 1280 ∧
    (frameCanvasSize 1920 1080).1 / (frameCanvasSize 1920 1080).2
      = (1920 : ℚ) / (1080 : ℚ) :=
  ⟨(c6_frame_dimensions 1920 1080 1 10 (by norm_num) (by norm_num)
      (by norm_num) (by norm_num)).1,
   (c6_frame_dimensions 1920 1080 1 10 (by norm_num) (by norm_num)
      (by norm_num) (by norm_num)).2.1⟩

/-! ## Claim C7: resource release on every exit path

The extractor in src/utils/videoHelpers.ts (the one App.tsx imports)
satisfies the claim: a 30 s timer bounds the seek, and all four exit
paths release the object URL and the video element.  The legacy variant
kept in src/unnamed/part_000 does not: it installs no timer at all and
its decode-error path releases neither resource, so the claim as stated
over both cited sources fails and is amended to the active extractor. -/

/-- C7 counterexample: in the legacy extractor of src/unnamed/part_000
the decode-error exit (video.onerror) rejects without revoking the object
URL or removing the video element, and no timeout path exists in its
event type. -/
theorem c7_legacy_decode_error_releases_nothing :
    extractFrameFromVideoLegacy 640 480 1 .loadError
      = (.errLoad, ⟨false, false⟩) := rfl

/-- C7 (amended to the extractor in src/utils/videoHelpers.ts): the seek
is bounded by a 30000 ms timer whose expiry settles the promise with the
timeout error, and every exit path — success, decode error, render-target
failure, thrown rasterization error and timeout — revokes the temporary
object URL and removes the off-screen video element.  In the legacy
part_000 variant only the onseeked paths release the resources. -/
theorem c7_release_on_all_paths (videoWidth videoHeight : Nat) (t : ℚ)
    (ev : ExtractEvent) :
    extractTimeoutMs = 30000 ∧
    (extractFrameFromVideo videoWidth videoHeight t ev).2.objectUrlRevoked = true ∧
    (extractFrameFromVideo videoWidth videoHeight t ev).2.videoRemoved = true ∧
    (ev = .timeout →
      (extractFrameFromVideo videoWidth videoHeight t ev).1 = .errTimeout) ∧
    (∀ c d, (extractFrameFromVideoLegacy videoWidth videoHeight t
        (.seeked c d)).2 = ⟨true, true⟩) := by
  refine ⟨rfl, ?_, ?_, ?_, ?_⟩
  · cases ev with
    | seeked c d => cases c <;> cases d <;> rfl
    | loadError => rfl
    | timeout => rfl
  · cases ev with
    | seeked c d => cases c <;> cases d <;> rfl
    | loadError => rfl
    | timeout => rfl
  · intro h
    subst h
    rfl
  · intro c d
    cases c <;> cases d <;> rfl

/-- Witness for C7: the timeout exit of the active extractor fails with
the timeout error while still releasing the object URL. -/
theorem c7_release_on_all_paths_witness :
    (extractFrameFromVideo 640 480 1 .timeout).1 = .errTimeout ∧
    (extractFrameFromVideo 640 480 1 .timeout).2.objectUrlRevoked = true :=
  ⟨(c7_release_on_all_paths 640 480 1 .timeout).2.2.2.1 rfl,
   (c7_release_on_all_paths 640 480 1 .timeout).2.1⟩

/-! ## Claim C1: the large-file branch never performs a resumable upload

uploadVideoToStorage branches on the 6 MiB threshold and its comments and
log announce a resumable upload for larger files, but both branches issue
the identical standard single-shot storage call: no 6 MiB chunking, no
retry schedule, no fingerprint-based resumption exists anywhere in the
client.  The code contradicts its own inline documentation; the claim
records the documented intent. -/

/-- C1: evaluated at a 7 MiB file (above the 6 MiB threshold), the
large-file branch of uploadVideoToStorage logs a resumable upload yet
invokes the plain standard upload, and for every file and id the storage
call is the same standard upload regardless of size — the embedded code
never produces a resumable transfer. -/
theorem c1_large_file_branch_is_standard_upload :
    FILE_SIZE_THRESHOLD < 7 * 1024 * 1024 ∧
    uploadVideoToStorage ⟨"clip.mp4", "video/mp4", 7 * 1024 * 1024⟩ "vid-1"
      = (["Using resumable upload for large file"],
         .standardUpload "videos" "videos/vid-1.mp4" ⟨"3600", false, "video/mp4"⟩) ∧
    (∀ (f : JsFile) (videoId : String) (sz : Nat),
      (uploadVideoToStorage f videoId).2
        = (uploadVideoToStorage ⟨f.name, f.type, sz⟩ videoId).2) := by
  refine ⟨by norm_num [FILE_SIZE_THRESHOLD], by rfl, ?_⟩
  intro f videoId sz
  by_cases h1 : f.size > FILE_SIZE_THRESHOLD <;>
    by_cases h2 : sz > FILE_SIZE_THRESHOLD <;>
      simp [uploadVideoToStorage, h1, h2]

/-! ## Claim C2: the transcription poll loop -/

/-- C2 counterexample: a provider that answers every status query with
`completed` but an empty (falsy) `text` never terminates the loop — the
source only returns when `statusResult.text` is truthy, so the loop keeps
polling and times out after all 60 queries, instead of terminating with
the transcript text at the first `completed` status. -/
theorem c2_completed_without_text_keeps_polling :
    transcribeVideoPoll (fun _ => ⟨true, "completed", some ""⟩)
      = (.timedOut, 60) := by
  have h : ∀ n, 0 < n → n ≤ 0 + maxPollAttempts →
      continuesPolling ((fun _ => (⟨true, "completed", some ""⟩ : PollResponse)) n) := by
    intro n _ _
    exact Or.inr ⟨by simp, fun _ => by simp [jsTruthy]⟩
  simpa [transcribeVideoPoll] using
    pollLoopAux_timeout (fun _ => ⟨true, "completed", some ""⟩) maxPollAttempts 0 h

/-- C2 (amended): the loop waits 5000 ms before each of at most 60 status
queries; a response with status `completed` and a non-empty transcript
text terminates with that text; a response with status `error` terminates
with failure; every other response — including `completed` with a missing
or empty text — continues polling; and a provider that never leaves
`processing` is queried exactly 60 times before the loop times out. -/
theorem c2_poll_loop (responses : Nat → PollResponse) :
    ((∀ n, 1 ≤ n → n ≤ 60 → responses n = ⟨true, "processing", none⟩) →
      transcribeVideoPoll responses = (.timedOut, 60)) ∧
    (∀ t, t ≠ "" → responses 1 = ⟨true, "completed", some t⟩ →
      transcribeVideoPoll responses = (.transcript t, 1)) ∧
    ((responses 1).ok = true → (responses 1).status = "error" →
      transcribeVideoPoll responses = (.failed, 1)) ∧
    (transcribeVideoPoll responses).2 ≤ maxPollAttempts ∧
    pollIntervalMs = 5000 := by
  refine ⟨?_, ?_, ?_, ?_, rfl⟩
  · intro h
    have hcont : ∀ n, 0 < n → n ≤ 0 + maxPollAttempts →
        continuesPolling (responses n) := by
      intro n h1 h2
      rw [h n (by omega) (by simpa [maxPollAttempts] using h2)]
      exact Or.inr ⟨by simp, by simp⟩
    simpa [transcribeVideoPoll] using
      pollLoopAux_timeout responses maxPollAttempts 0 hcont
  · intro t ht hr
    show pollLoopAux responses (59 + 1) 0 = (.transcript t, 1)
    rw [pollLoopAux_succ, hr]
    simp [jsTruthy, ht]
  · intro hok hstatus
    show pollLoopAux responses (59 + 1) 0 = (.failed, 1)
    rw [pollLoopAux_succ]
    simp [hok, hstatus]
  · simpa [transcribeVideoPoll] using
      pollLoopAux_queries_le responses maxPollAttempts 0

/-- Witness for C2: the ever-processing provider is queried exactly 60
times and the loop times out. -/
theorem c2_poll_loop_witness :
    transcribeVideoPoll (fun _ => ⟨true, "processing", none⟩)
      = (.timedOut, 60) :=
  (c2_poll_loop (fun _ => ⟨true, "processing", none⟩)).1 (fun _ _ _ => rfl)

/-! ## Claim C3: upload / insert / trigger ordering -/

/-- C3: in the video upload flow, a database record referencing a URL is
inserted only after the storage upload completed and yielded exactly that
URL; the transcription trigger fires only after the record insert, and
only when the insert succeeded; and the trace and the outcome of the flow
are identical for every network outcome of the trigger — a failing
trigger never blocks, rejects or rolls back the completed upload and
insert, whose handling (the total triggerVideoProcessing) only logs. -/
theorem c3_upload_ordering (file : Option JsFile) (videoId : String)
    (storageResult : Option String) (insertOk : Bool) (net : TriggerNet) :
    (∀ url,
      UploadEvent.dbInsertCompleted url
          ∈ (handleUploadVideo file videoId storageResult insertOk net).1 →
        storageResult = some url ∧
        ∃ i j : Nat, i < j ∧
          (handleUploadVideo file videoId storageResult insertOk net).1[i]?
            = some (UploadEvent.storageUploadCompleted url) ∧
          (handleUploadVideo file videoId storageResult insertOk net).1[j]?
            = some (UploadEvent.dbInsertCompleted url)) ∧
    (∀ vid url,
      UploadEvent.transcriptionTriggered vid url
          ∈ (handleUploadVideo file videoId storageResult insertOk net).1 →
        insertOk = true ∧
        ∃ i j : Nat, i < j ∧
          (handleUploadVideo file videoId storageResult insertOk net).1[i]?
            = some (UploadEvent.dbInsertCompleted url) ∧
          (handleUploadVideo file videoId storageResult insertOk net).1[j]?
            = some (UploadEvent.transcriptionTriggered vid url)) ∧
    (∀ net2 : TriggerNet,
      (handleUploadVideo file videoId storageResult insertOk net2).1
        = (handleUploadVideo file videoId storageResult insertOk net).1 ∧
      (handleUploadVideo file videoId storageResult insertOk net2).2.1
        = (handleUploadVideo file videoId storageResult insertOk net).2.1) := by
  match file, storageResult with
  | none, _ =>
    refine ⟨?_, ?_, fun net2 => ⟨rfl, rfl⟩⟩
    · intro url h
      simp [handleUploadVideo] at h
    · intro vid url h
      simp [handleUploadVideo] at h
  | some f, none =>
    refine ⟨?_, ?_, fun net2 => ⟨rfl, rfl⟩⟩
    · intro url h
      simp [handleUploadVideo] at h
    · intro vid url h
      simp [handleUploadVideo] at h
  | some f, some storageUrl =>
    by_cases hins : insertOk = true
    · subst hins
      refine ⟨?_, ?_, fun net2 => ⟨rfl, rfl⟩⟩
      · intro url h
        simp only [handleUploadVideo, if_true] at h
        simp at h
        subst h
        exact ⟨rfl, 0, 1, by omega, rfl, rfl⟩
      · intro vid url h
        simp only [handleUploadVideo, if_true] at h
        simp at h
        obtain ⟨hvid, hurl⟩ := h
        subst hvid
        subst hurl
        exact ⟨rfl, 1, 2, by omega, rfl, rfl⟩
    · have hins2 : insertOk = false := by
        cases insertOk
        · rfl
        · exact absurd rfl hins
      subst hins2
      refine ⟨?_, ?_, fun net2 => ⟨rfl, rfl⟩⟩
      · intro url h
        simp [handleUploadVideo] at h
      · intro vid url h
        simp [handleUploadVideo] at h

/-- Witness for C3: a concrete successful flow (storage URL obtained,
insert succeeded, trigger hit a network error) contains the trigger event
strictly after the insert event. -/
theorem c3_upload_ordering_witness :
    UploadEvent.transcriptionTriggered "vid-1" "https://cdn/v.mp4"
        ∈ (handleUploadVideo (some ⟨"v.mp4", "video/mp4", 100⟩) "vid-1"
            (some "https://cdn/v.mp4") true (.networkError "offline")).1 ∧
    ∃ i j : Nat, i < j ∧
      (handleUploadVideo (some ⟨"v.mp4", "video/mp4", 100⟩) "vid-1"
          (some "https://cdn/v.mp4") true (.networkError "offline")).1[i]?
        = some (UploadEvent.dbInsertCompleted "https://cdn/v.mp4") ∧
      (handleUploadVideo (some ⟨"v.mp4", "video/mp4", 100⟩) "vid-1"
          (some "https://cdn/v.mp4") true (.networkError "offline")).1[j]?
        = some (UploadEvent.transcriptionTriggered "vid-1" "https://cdn/v.mp4") := by
  have hmem : UploadEvent.transcriptionTriggered "vid-1" "https://cdn/v.mp4"
      ∈ (handleUploadVideo (some ⟨"v.mp4", "video/mp4", 100⟩) "vid-1"
          (some "https://cdn/v.mp4") true (.networkError "offline")).1 := by
    simp [handleUploadVideo]
  exact ⟨hmem,
    ((c3_upload_ordering (some ⟨"v.mp4", "video/mp4", 100⟩) "vid-1"
        (some "https://cdn/v.mp4") true (.networkError "offline")).2.1
        "vid-1" "https://cdn/v.mp4" hmem).2⟩

/-! ## Claim C8: accessibility verification before submission -/

/-- C8 counterexample: for a video URL that does not contain the
public-storage marker, with both the HEAD and the GET probe failing and no
signed URL available, the handler does not fail — verifyVideoAccess
returns `ok` with the original unreachable URL, which the handler then
submits to the transcription provider as `finalVideoUrl`. -/
theorem c8_unreachable_external_url_still_submitted :
    verifyVideoAccess "https://cdn.example.com/v.mp4" ⟨false, false, none⟩
      = .ok "https://cdn.example.com/v.mp4" := rfl

/-- C8 (amended): the handler tries HEAD, then GET; the signed-URL
fallback runs only when the URL contains the public-storage marker
(extractBucketPath succeeds): then a minted signed URL is submitted
instead, and if minting fails the handler throws, producing the failed
(500) response rather than submitting.  When the marker is absent the
handler keeps — and submits — the original URL even though both probes
failed. -/
theorem c8_verify_access (videoUrl : String) (probe : AccessProbe) :
    (probe.headOk = true →
      verifyVideoAccess videoUrl probe = .ok videoUrl) ∧
    (probe.headOk = false → probe.getOk = true →
      verifyVideoAccess videoUrl probe = .ok videoUrl) ∧
    (probe.headOk = false → probe.getOk = false →
      ∀ bp, extractBucketPath videoUrl = some bp →
        (∀ u, probe.signedUrl = some u →
          verifyVideoAccess videoUrl probe = .ok u) ∧
        (probe.signedUrl = none →
          verifyVideoAccess videoUrl probe = .error "Failed to access video")) ∧
    (probe.headOk = false → probe.getOk = false →
      extractBucketPath videoUrl = none →
      verifyVideoAccess videoUrl probe = .ok videoUrl) := by
  refine ⟨?_, ?_, ?_, ?_⟩
  · intro h
    simp [verifyVideoAccess, h]
  · intro h1 h2
    simp [verifyVideoAccess, h1, h2]
  · intro h1 h2 bp hbp
    constructor
    · intro u hu
      simp [verifyVideoAccess, h1, h2, hbp, hu]
    · intro hu
      simp [verifyVideoAccess, h1, h2, hbp, hu]
  · intro h1 h2 hbp
    simp [verifyVideoAccess, h1, h2, hbp]

/-- Witness for C8: for a storage public URL whose HEAD and GET probes
fail and whose signed URL cannot be minted, the handler fails instead of
submitting. -/
theorem c8_verify_access_witness :
    verifyVideoAccess
        "https://proj.supabase.co/storage/v1/object/public/videos/a.mp4"
        ⟨false, false, none⟩
      = .error "Failed to access video" :=
  ((c8_verify_access
      "https://proj.supabase.co/storage/v1/object/public/videos/a.mp4"
      ⟨false, false, none⟩).2.2.1 rfl rfl ("videos", "a.mp4") (by rfl)).2 rfl

/-! ## Claim C4: attached sources are never detached -/

/-- C4: the per-item load stage is monotonic for the life of the session:
no scheduler operation — mount, scroll handling, intersection callbacks,
keyboard navigation, settle timers, or click handling — ever detaches an
attached source or removes an item from the loaded set; and the
intersection callback for a non-active entry (not intersecting, or
visible ratio at most 0.5) always leaves that item paused. -/
theorem c4_attach_is_monotonic (cfg : FeedConfig) (op : FeedOp)
    (s : FeedState) (i : Nat) :
    (s.loaded i = true → (applyFeedOp cfg op s).loaded i = true) ∧
    (∀ idx inter frac, op = FeedOp.intersection idx inter frac →
      inter = false ∨ frac ≤ 1 / 2 →
      (applyFeedOp cfg op s).playing idx = false) := by
  constructor
  · intro h
    cases op with
    | mount =>
      dsimp only [applyFeedOp, mountEffect]
      split_ifs
      all_goals
        repeat
          first
            | exact h
            | apply attachIfNeeded_mono
            | apply attachMany_mono
    | scroll closestIndex =>
      dsimp only [applyFeedOp, handleScroll]
      split_ifs
      all_goals
        repeat
          first
            | exact h
            | apply attachIfNeeded_mono
            | apply attachMany_mono
    | intersection idx inter frac =>
      dsimp only [applyFeedOp, intersectionCallback]
      split_ifs
      all_goals
        repeat
          first
            | exact h
            | apply attachIfNeeded_mono
            | apply attachMany_mono
    | key k =>
      dsimp only [applyFeedOp, handleKeyDown]
      split_ifs
      all_goals
        repeat
          first
            | exact h
            | apply attachIfNeeded_mono
            | apply attachMany_mono
    | settle =>
      exact h
    | click idx =>
      dsimp only [applyFeedOp, handleVideoClick]
      split_ifs
      all_goals
        repeat
          first
            | exact h
            | apply attachIfNeeded_mono
            | apply attachMany_mono
  · intro idx inter frac hop hcond
    subst hop
    have hc : ¬(inter = true ∧ frac > 1 / 2) := by
      rcases hcond with h | h
      · rintro ⟨h1, _⟩
        rw [h] at h1
        exact Bool.false_ne_true h1
      · rintro ⟨_, h2⟩
        exact absurd h2 (not_lt.mpr h)
    dsimp only [applyFeedOp, intersectionCallback]
    rw [if_neg hc]
    simp

/-- Witness for C4: with a fast connection and ten items, moving the
active index from 2 to 3 by keyboard keeps item 2 attached, and an
intersection callback reporting item 3 as not intersecting leaves item 3
paused. -/
theorem c4_attach_is_monotonic_witness :
    (applyFeedOp ⟨ConnectionQuality.fast, 10⟩ (FeedOp.key ArrowKey.down)
        ⟨2, false, fun j => decide (j = 2), fun _ => false⟩).loaded 2 = true ∧
    (applyFeedOp ⟨ConnectionQuality.fast, 10⟩ (FeedOp.intersection 3 false 0)
        ⟨0, false, fun _ => false, fun _ => true⟩).playing 3 = false :=
  ⟨(c4_attach_is_monotonic ⟨ConnectionQuality.fast, 10⟩
      (FeedOp.key ArrowKey.down)
      ⟨2, false, fun j => decide (j = 2), fun _ => false⟩ 2).1 rfl,
   (c4_attach_is_monotonic ⟨ConnectionQuality.fast, 10⟩
      (FeedOp.intersection 3 false 0)
      ⟨0, false, fun _ => false, fun _ => true⟩ 3).2 3 false 0 rfl
      (Or.inl rfl)⟩

/-! ## Claim C5: connection classification and mount prefetch -/

/-- C5: the classifier returns medium when no connection object (or no
usable signal) is available; the fan-out is 1 for slow, 2 for medium and
3 for fast; and on a fast connection with ten items the mount effect
attaches sources for exactly items 0, 1, 2 and 3, leaving items 4
through 9 — in particular item 4 — unrequested. -/
theorem c5_connection_and_mount_prefetch :
    getConnectionQuality none = ConnectionQuality.medium ∧
    getConnectionQuality (some ⟨none, none, none⟩) = ConnectionQuality.medium ∧
    preloadCountFor ConnectionQuality.slow = 1 ∧
    preloadCountFor ConnectionQuality.medium = 2 ∧
    preloadCountFor ConnectionQuality.fast = 3 ∧
    (List.range 10).map
        (applyFeedOp ⟨ConnectionQuality.fast, 10⟩ FeedOp.mount
          initialFeedState).loaded
      = [true, true, true, true, false, false, false, false, false, false] := by
  refine ⟨rfl, by decide, rfl, rfl, rfl, by decide⟩
